import Mathlib

/-!
A shallow embedding of `src/pdm/cli/commands/venv/backends.py`: the virtualenv
backend abstraction of pdm (classes `Backend`, `VirtualenvBackend`,
`VenvBackend`, `UvBackend`, `CondaBackend`).

Python exceptions are modelled with an error type threaded through `Except` or
an `Option` error component; filesystem and process side effects are modelled
as an explicit trace of `Effect` values, so that ordering claims ("before any
deletion", "before any process invocation") can be stated as facts about the
trace.  External collaborators (interpreter discovery, project configuration,
the spawned tool processes, the state of the filesystem) are parameters of the
model (`Project`, `World`).
-/

/-- The errors the module can surface.  `usageError` embeds `PdmUsageError`,
`createError` embeds `VirtualenvCreateError`, and `osError` embeds a raw
Python `OSError`/`PermissionError` that no code in this module catches. -/
inductive PdmError where
  | usageError (msg : String)
  | createError (msg : String)
  | osError (msg : String)
deriving Repr, DecidableEq

deriving instance DecidableEq for Except

/-- Observable side effects of one creation request, in order: creating the
venv root directory (`venv_parent.mkdir`), `location.unlink()`,
`shutil.rmtree(entry.path)`, `os.remove(entry.path)`, and
`subprocess.check_call(cmd)`. -/
inductive Effect where
  | mkdirVenvRoot (path : String)
  | unlinkFile (path : String)
  | rmtree (path : String)
  | removeEntry (path : String)
  | runCommand (cmd : List String)
deriving Repr, DecidableEq

/-- Whether an effect is a process invocation (`subprocess.check_call`). -/
def Effect.isRunCommand : Effect → Bool
  | .runCommand _ => true
  | _ => false

/-- Whether an effect deletes something from the filesystem. -/
def Effect.isDeletion : Effect → Bool
  | .unlinkFile _ => true
  | .rmtree _ => true
  | .removeEntry _ => true
  | _ => false

/-- The fields of `pdm.models.python.PythonInfo` this module reads. -/
structure PythonInfo where
  executable : String
  identifier : String
  valid : Bool
  version : String
  major : Nat
  minor : Nat
deriving Repr, DecidableEq

/-- A directory entry as `os.scandir` reports it: a regular file, a symbolic
link (`entry.is_symlink()` true, whatever it points at), or a real
subdirectory with its own entries. -/
inductive FSEntry where
  | file (name : String) : FSEntry
  | link (name : String) : FSEntry
  | dir (name : String) (sub : List FSEntry) : FSEntry
deriving Repr

/-- The name of a directory entry. -/
def FSEntry.name : FSEntry → String
  | .file n => n
  | .link n => n
  | .dir n _ => n

/-- What exists at a filesystem location: a regular file or a directory with
its entries.  `Option FSNode` adds "nothing exists there". -/
inductive FSNode where
  | file : FSNode
  | dir (entries : List FSEntry) : FSNode
deriving Repr

/-- The project context consumed by the backends: the root path (as segments),
the pinned interpreter `project._python`, the `venv.location` and
`python.use_python_version` configuration entries, `python_requires.contains`,
the raw candidate sequence the discovery collaborator `iter_interpreters`
yields for this request, `get_venv_prefix(project)`, and `core.uv_cmd`. -/
structure Project where
  root : List String
  pinnedPython : Option PythonInfo
  venvLocation : String
  usePythonVersionFile : Bool
  requiresContains : String → Bool
  interpreters : List PythonInfo
  venvPrefix : String
  uvCmd : List String

/-- Embeds `self.project.root.name`: the final path component. -/
def Project.rootName (p : Project) : String :=
  p.root.getLastD ""

/-- Embeds `str(self.project.root / ".venv")`. -/
def Project.inProjectLocation (p : Project) : String :=
  String.intercalate "/" p.root ++ "/.venv"

/-- The outcome of `subprocess.check_call`: the child ran and exited with a
code, or the spawn itself failed (e.g. the executable does not exist). -/
inductive SpawnResult where
  | exit (code : Nat)
  | launchFailure (msg : String)
deriving Repr, DecidableEq

/-- Environment facts outside the project object: `sys.executable`, whether
`Path(venv.location)` already `is_dir()`, what exists at each path, which
paths the OS refuses to delete (raising `OSError`), and how each spawned
command behaves. -/
structure World where
  sysExecutable : String
  venvParentIsDir : Bool
  fsAt : String → Option FSNode
  undeletable : String → Bool
  spawn : List String → SpawnResult

/-- The four backend classes, keyed as in the `BACKENDS` mapping. -/
inductive BackendKind where
  | virtualenv
  | venv
  | conda
  | uv
deriving Repr, DecidableEq

/-- A backend instance: `Backend.__init__(project, python)` plus which
subclass it is. -/
structure Backend where
  kind : BackendKind
  project : Project
  python : Option String

/-- Python truthiness of an optional string (`None` and `""` are falsy). -/
def strTruthy : Option String → Bool
  | none => false
  | some s => !s.isEmpty

/-- The filter passed to `iter_interpreters` (`match_func` inside
`Backend._resolved_interpreter`): with an explicit spec every candidate
matches; otherwise the candidate must be valid and satisfy
`python_requires`. -/
def matchFunc (b : Backend) (py : PythonInfo) : Bool :=
  strTruthy b.python || (py.valid && b.project.requiresContains py.version)

/-- The message of the `VirtualenvCreateError` raised when resolution fails:
`f"Can't resolve python interpreter{python}"` where `python` is `" " + spec`
when a spec was given. -/
def resolveErrMsg (python : Option String) : String :=
  "Can't resolve python interpreter" ++ (if strTruthy python then " " ++ python.getD "" else "")

/-- Embeds `Backend._resolved_interpreter`: with no explicit spec, a pinned project
interpreter is returned directly; otherwise the first discovery candidate
accepted by `matchFunc` is returned; an exhausted sequence raises
`VirtualenvCreateError`. -/
def resolvedInterpreter (b : Backend) : Except PdmError PythonInfo :=
  match (if strTruthy b.python then none else b.project.pinnedPython) with
  | some py => .ok py
  | none =>
      match (b.project.interpreters.filter (matchFunc b)).head? with
      | some py => .ok py
      | none => .error (.createError (resolveErrMsg b.python))

/-- Embeds `Backend.ident` and `CondaBackend.ident`: the conda override returns an
explicitly supplied spec verbatim; every other backend (and conda without a
spec) uses the resolved interpreter's identifier. -/
def Backend.identE (b : Backend) : Except PdmError String :=
  match b.kind with
  | .conda =>
      if strTruthy b.python then .ok (b.python.getD "")
      else (resolvedInterpreter b).map (·.identifier)
  | _ => (resolvedInterpreter b).map (·.identifier)

/-- Embeds `pip_args` of each backend class (each reads only `with_pip`). -/
def pipArgs (k : BackendKind) (withPip : Bool) : List String :=
  match k with
  | .virtualenv => if withPip then [] else ["--no-pip", "--no-setuptools", "--no-wheel"]
  | .venv => if withPip then [] else ["--without-pip"]
  | .uv => if withPip then ["--seed"] else []
  | .conda => if withPip then ["pip"] else []

/-- Embeds `Backend.subprocess_call`: runs the command; a non-zero exit becomes a
`VirtualenvCreateError` wrapping the `CalledProcessError`; a launch failure
(`OSError` from `check_call`) is not caught and propagates raw. -/
def subprocessCall (w : World) (cmd : List String) : List Effect × Except PdmError Unit :=
  match w.spawn cmd with
  | .exit code =>
      if code == 0 then ([.runCommand cmd], .ok ())
      else
        ([.runCommand cmd],
          .error (.createError
            ("Command " ++ String.intercalate " " cmd ++ " returned non-zero exit status "
              ++ toString code)))
  | .launchFailure msg => ([.runCommand cmd], .error (.osError msg))

/-- Path join, `parent / child` on `pathlib.Path`. -/
def pathJoin (parent child : String) : String :=
  parent ++ "/" ++ child

/-- The loop body of `Backend._ensure_clean` over `os.scandir(location)`:
`shutil.rmtree` for a real subdirectory, `os.remove` otherwise (files and
symbolic links alike).  Returns the deletion effects performed, the entries
still present, and the uncaught `OSError` if the OS refused a deletion. -/
def cleanEntries (parent : String) (und : String → Bool) :
    List FSEntry → List Effect × List FSEntry × Option PdmError
  | [] => ([], [], none)
  | e :: rest =>
      let p := pathJoin parent e.name
      if und p then ([], e :: rest, some (.osError ("cannot delete " ++ p)))
      else
        let eff := match e with
          | .dir _ _ => Effect.rmtree p
          | _ => Effect.removeEntry p
        let (effs, remaining, err) := cleanEntries parent und rest
        (eff :: effs, remaining, err)

/-- Embeds `Backend._ensure_clean(location, force)`: no-op when nothing exists at the
location or it is an empty directory; `VirtualenvCreateError` when it is
occupied and `force` is false; with `force`, a file is unlinked and a
directory is emptied entry by entry.  Returns what is left at the location,
the deletion effects, and the error raised, if any. -/
def ensureClean (locPath : String) (node : Option FSNode) (und : String → Bool)
    (force : Bool) : Option FSNode × List Effect × Option PdmError :=
  match node with
  | none => (none, [], none)
  | some (.dir []) => (some (.dir []), [], none)
  | some n =>
      if !force then
        (some n, [],
          some (.createError
            ("The location " ++ locPath ++ " is not empty, add --force to overwrite it.")))
      else
        match n with
        | .file =>
            if und locPath then (some .file, [], some (.osError ("cannot delete " ++ locPath)))
            else (none, [.unlinkFile locPath], none)
        | .dir entries =>
            let (effs, remaining, err) := cleanEntries locPath und entries
            (some (.dir remaining), effs, err)

/-- Embeds `Backend.get_location(name, venv_name)`: rejects supplying both, ensures
the venv root directory exists (recorded as an effect), and joins the root
with `venv_name` or `prefix + (name or ident)`. -/
def getLocation (b : Backend) (w : World) (name vname : Option String) :
    List Effect × Except PdmError String :=
  if strTruthy name && strTruthy vname then
    ([], .error (.usageError "Cannot specify both name and venv_name"))
  else
    let venvParent := b.project.venvLocation
    let effs := if w.venvParentIsDir then [] else [Effect.mkdirVenvRoot venvParent]
    if strTruthy vname then
      (effs, .ok (pathJoin venvParent (vname.getD "")))
    else
      match (if strTruthy name then .ok (name.getD "") else b.identE :
          Except PdmError String) with
      | .error e => (effs, .error e)
      | .ok nm => (effs, .ok (pathJoin venvParent (b.project.venvPrefix ++ nm)))

/-- Embeds `s.lower()`: character-wise lowercasing. -/
def lowerStr (s : String) : String :=
  String.mk (s.data.map Char.toLower)

/-- Embeds `s.startswith(pat)`. -/
def strStartsWith (s pat : String) : Bool :=
  s.data.take pat.data.length == pat.data

/-- Substitution of one literal pattern (head `p0`, tail `prest`) everywhere
in a character list; the embedding of what `str.format` does to one named
field.  `fuel` bounds the recursion; every step consumes at least one input
character, so `l.length` fuel computes the full substitution. -/
def substAux (p0 : Char) (prest repl : List Char) : Nat → List Char → List Char
  | 0, l => l
  | _ + 1, [] => []
  | fuel + 1, c :: rest =>
      if c = p0 ∧ rest.take prest.length = prest then
        repl ++ substAux p0 prest repl fuel (rest.drop prest.length)
      else
        c :: substAux p0 prest repl fuel rest

/-- Substitution of one literal pattern everywhere in a character list (an
empty pattern substitutes nothing). -/
def substPat (pat repl l : List Char) : List Char :=
  match pat with
  | [] => l
  | p :: ps => substAux p ps repl l.length l

/-- Embeds `template.format(project_name=pn, python_version=pv)`, for templates that
use only those two fields (all this module supplies): each placeholder is
replaced by its value. -/
def formatPrompt (template pn pv : String) : String :=
  String.mk (substPat "\x7bpython_version\x7d".data pv.data
    (substPat "\x7bproject_name\x7d".data pn.data template.data))

/-- The prompt computation inside `Backend.create` when a template is given:
`prompt.format(project_name=self.project.root.name.lower() or "virtualenv",
python_version=self.ident)`. -/
def formatCreatePrompt (b : Backend) (template : String) : Except PdmError String :=
  match b.identE with
  | .error e => .error e
  | .ok idStr =>
      let pn := lowerStr b.project.rootName
      .ok (formatPrompt template (if pn.isEmpty then "virtualenv" else pn) idStr)

/-- Embeds the expression building the prompt flag: the prompt option the three
virtualenv-style backends add (absent for `None` and for the empty string). -/
def promptOption : Option String → List String
  | none => []
  | some s => if s.isEmpty then [] else ["--prompt=" ++ s]

/-- Embeds `perform_create` of each backend class: builds the tool command and runs
it through `subprocess_call`.  The conda variant first computes the python
version specifier (resolving the interpreter when no spec was given) and
rejects a caller-supplied `python=` argument with `PdmUsageError` before
invoking anything. -/
def performCreate (b : Backend) (w : World) (location : String)
    (args : List String) (prompt : Option String) : List Effect × Except PdmError Unit :=
  match b.kind with
  | .virtualenv =>
      match resolvedInterpreter b with
      | .error e => ([], .error e)
      | .ok py =>
          subprocessCall w
            ([w.sysExecutable, "-m", "virtualenv", location, "-p", py.executable]
              ++ promptOption prompt ++ args)
  | .venv =>
      match resolvedInterpreter b with
      | .error e => ([], .error e)
      | .ok py =>
          subprocessCall w
            ([py.executable, "-m", "venv", location] ++ promptOption prompt ++ args)
  | .uv =>
      match resolvedInterpreter b with
      | .error e => ([], .error e)
      | .ok py =>
          subprocessCall w
            (b.project.uvCmd ++ ["venv", "-p", py.executable]
              ++ promptOption prompt ++ args ++ [location])
  | .conda =>
      let pvE : Except PdmError String :=
        if strTruthy b.python then .ok (b.python.getD "")
        else (resolvedInterpreter b).map (fun py => toString py.major ++ "." ++ toString py.minor)
      match pvE with
      | .error e => ([], .error e)
      | .ok pv =>
          if args.any (fun a => strStartsWith a "python=") then
            ([], .error (.usageError "Cannot use python= in conda creation arguments"))
          else
            subprocessCall w
              (["conda", "create", "--yes", "--prefix", location, "python=" ++ pv] ++ args)

/-- Embeds `Backend.create`: compute the location (the in-project shortcut or
`get_location`), prepend the pip args, format the prompt, clean the location,
delegate to `perform_create`, return the location.  The first component is
the trace of effects performed before the request finished or failed. -/
def create (b : Backend) (w : World) (name : Option String) (args : List String)
    (force : Bool) (inProject : Bool) (prompt : Option String) (withPip : Bool)
    (venvName : Option String) : List Effect × Except PdmError String :=
  let (locEffs, locE) :=
    if inProject then ([], .ok b.project.inProjectLocation)
    else getLocation b w name venvName
  match locE with
  | .error e => (locEffs, .error e)
  | .ok location =>
      let fullArgs := pipArgs b.kind withPip ++ args
      let promptE : Except PdmError (Option String) :=
        match prompt with
        | none => .ok none
        | some t => (formatCreatePrompt b t).map some
      match promptE with
      | .error e => (locEffs, .error e)
      | .ok fmtPrompt =>
          let (_, cleanEffs, cleanErr) :=
            ensureClean location (w.fsAt location) w.undeletable force
          match cleanErr with
          | some e => (locEffs ++ cleanEffs, .error e)
          | none =>
              let (pcEffs, pcE) := performCreate b w location fullArgs fmtPrompt
              match pcE with
              | .error e => (locEffs ++ cleanEffs ++ pcEffs, .error e)
              | .ok _ => (locEffs ++ cleanEffs ++ pcEffs, .ok location)

/-! ## Concrete fixtures used by witnesses and counterexamples -/

/-- A concrete resolved interpreter. -/
def pyA : PythonInfo :=
  { executable := "/usr/bin/python3.11", identifier := "3.11", valid := true,
    version := "3.11.2", major := 3, minor := 11 }

/-- A concrete project with a pinned interpreter. -/
def projA : Project :=
  { root := ["home", "MyApp"], pinnedPython := some pyA, venvLocation := "/venvs",
    usePythonVersionFile := false, requiresContains := fun _ => true,
    interpreters := [pyA], venvPrefix := "MyApp-abc-", uvCmd := ["uv"] }

/-- A project with no pinned interpreter and no discovery candidates, so
interpreter resolution fails on it. -/
def projEmpty : Project :=
  { root := ["home", "MyApp"], pinnedPython := none, venvLocation := "/venvs",
    usePythonVersionFile := false, requiresContains := fun _ => false,
    interpreters := [], venvPrefix := "MyApp-abc-", uvCmd := ["uv"] }

/-- A world where every command exits 0, no path is occupied and every
deletion is allowed. -/
def worldA : World :=
  { sysExecutable := "/sys/python", venvParentIsDir := true, fsAt := fun _ => none,
    undeletable := fun _ => false, spawn := fun _ => .exit 0 }

/-- Fixture: `projA` with an empty root path, so the root folder name is empty. -/
def projNoName : Project :=
  { projA with root := [] }

/-- Fixture: `worldA` with every location occupied by a directory holding one file. -/
def worldOccupied : World :=
  { worldA with fsAt := fun _ => some (.dir [.file "x"]) }

/-- Fixture: `worldOccupied` where the OS refuses every deletion. -/
def worldUndeletable : World :=
  { worldOccupied with undeletable := fun _ => true }

/-- Fixture: `worldA` where every spawned command exits with status 2. -/
def worldExit2 : World :=
  { worldA with spawn := fun _ => .exit 2 }

/-- Fixture: `worldA` where every spawn attempt fails to launch. -/
def worldLaunchFail : World :=
  { worldA with spawn := fun _ => .launchFailure "spawn failed" }

/-! ## Helper lemmas -/

/-- The single deletion effect `_ensure_clean` performs for one directory
entry: `shutil.rmtree` recurses into a real subdirectory, everything else
(files and symbolic links, even links to directories) is removed as a single
entry by `os.remove`. -/
def cleanEffect (parent : String) : FSEntry → Effect
  | .dir n _ => .rmtree (pathJoin parent n)
  | e => .removeEntry (pathJoin parent e.name)

lemma cleanEntries_all_deletable (parent : String) (und : String → Bool)
    (l : List FSEntry) (h : l.all (fun e => !und (pathJoin parent e.name)) = true) :
    cleanEntries parent und l = (l.map (cleanEffect parent), [], none) := by
  induction l with
  | nil => rfl
  | cons e rest ih =>
      rw [List.all_cons, Bool.and_eq_true] at h
      have h1 : und (pathJoin parent e.name) = false := by
        simpa using h.1
      cases e <;>
        simp_all [cleanEntries, FSEntry.name, cleanEffect]

lemma cleanEntries_no_run (parent : String) (und : String → Bool) (l : List FSEntry) :
    (cleanEntries parent und l).1.all (fun e => !e.isRunCommand) = true := by
  induction l with
  | nil => rfl
  | cons e rest ih =>
      cases e <;> simp only [cleanEntries] <;> split <;>
        simp_all [Effect.isRunCommand]

lemma ensureClean_no_run (locPath : String) (node : Option FSNode)
    (und : String → Bool) (force : Bool) :
    (ensureClean locPath node und force).2.1.all (fun e => !e.isRunCommand) = true := by
  match node with
  | none => rfl
  | some (.dir []) => rfl
  | some .file =>
      simp only [ensureClean]
      split
      · rfl
      · split <;> simp [Effect.isRunCommand]
  | some (.dir (e :: rest)) =>
      simp only [ensureClean]
      split
      · rfl
      · exact cleanEntries_no_run _ _ _

lemma getLocation_no_run (b : Backend) (w : World) (name vname : Option String) :
    (getLocation b w name vname).1.all (fun e => !e.isRunCommand) = true := by
  unfold getLocation
  split
  · rfl
  · split <;> split <;> try rfl
    all_goals split <;> simp [Effect.isRunCommand]

lemma subprocessCall_trace (w : World) (cmd : List String) :
    (subprocessCall w cmd).1 = [.runCommand cmd] := by
  unfold subprocessCall
  cases w.spawn cmd with
  | exit code =>
      by_cases h : code == 0 <;> simp [h]
  | launchFailure msg => rfl

/-! ## The claims -/

/-- C5: for all four variants, `pipArgs true` and `pipArgs false` are the
deterministic, variant-specific flag tuples of the spec's table, and for each
variant the two tuples are disjoint. -/
theorem claim_C5_pip_args :
    pipArgs .virtualenv true = [] ∧
    pipArgs .virtualenv false = ["--no-pip", "--no-setuptools", "--no-wheel"] ∧
    pipArgs .venv false = ["--without-pip"] ∧
    pipArgs .venv true = [] ∧
    pipArgs .uv true = ["--seed"] ∧
    pipArgs .uv false = [] ∧
    pipArgs .conda true = ["pip"] ∧
    pipArgs .conda false = [] ∧
    (∀ k : BackendKind,
      (pipArgs k true).all (fun a => !(pipArgs k false).contains a) = true) := by
  refine ⟨rfl, rfl, rfl, rfl, rfl, rfl, rfl, rfl, fun k => ?_⟩
  cases k <;> decide

/-- C3: `ensureClean` is a no-op on a non-existent location and on an empty
directory; on an occupied location without `force` it raises the
location-not-empty error with no deletion performed and the location
unchanged; with `force` it unlinks a file location, and empties a directory
location entry by entry (`cleanEffect`: recursive `rmtree` for real
subdirectories, single `os.remove` for files and symbolic links), keeping the
directory itself. -/
theorem claim_C3_ensure_clean (loc : String) (und : String → Bool) (force : Bool)
    (n : FSNode) (entries : List FSEntry) :
    ensureClean loc none und force = (none, [], none) ∧
    ensureClean loc (some (.dir [])) und force = (some (.dir []), [], none) ∧
    (n ≠ .dir [] →
      ensureClean loc (some n) und false =
        (some n, [],
          some (.createError
            ("The location " ++ loc ++ " is not empty, add --force to overwrite it.")))) ∧
    (und loc = false →
      ensureClean loc (some .file) und true = (none, [.unlinkFile loc], none)) ∧
    (entries.all (fun e => !und (pathJoin loc e.name)) = true →
      ensureClean loc (some (.dir entries)) und true =
        (some (.dir []), entries.map (cleanEffect loc), none)) := by
  refine ⟨rfl, rfl, ?_, ?_, ?_⟩
  · intro hn
    match n with
    | .file => rfl
    | .dir [] => exact absurd rfl hn
    | .dir (e :: rest) => rfl
  · intro h
    simp [ensureClean, h]
  · intro h
    match entries with
    | [] => rfl
    | e :: rest =>
        simp [ensureClean, cleanEntries_all_deletable loc und (e :: rest) h]

/-- Witness for C3 at a concrete directory holding a file, a symbolic link
and a real subdirectory. -/
theorem claim_C3_witness :
    ensureClean "L" (some (.dir [.file "a", .link "b", .dir "c" [.file "d"]]))
        (fun _ => false) true =
      (some (.dir []), [.removeEntry "L/a", .removeEntry "L/b", .rmtree "L/c"], none) := by
  have h := (claim_C3_ensure_clean "L" (fun _ => false) true .file
      [.file "a", .link "b", .dir "c" [.file "d"]]).2.2.2.2 (by decide)
  simpa [cleanEffect, pathJoin, FSEntry.name] using h

/-- C4: interpreter resolution returns a pinned interpreter without touching
the discovery candidates when no spec is given (the candidate list is
universally quantified); accepts the first discovery candidate regardless of
validity or version when a spec is given; and, exhausting the candidates,
fails with an error message that carries the attempted spec. -/
theorem claim_C4_interpreter_resolution (b : Backend) (py : PythonInfo)
    (rest : List PythonInfo) (s : String) :
    (strTruthy b.python = false → b.project.pinnedPython = some py →
      resolvedInterpreter b = .ok py) ∧
    (strTruthy b.python = true → b.project.interpreters = py :: rest →
      resolvedInterpreter b = .ok py) ∧
    (b.python = some s → s.isEmpty = false → b.project.interpreters = [] →
      resolvedInterpreter b =
        .error (.createError ("Can't resolve python interpreter " ++ s))) := by
  refine ⟨?_, ?_, ?_⟩
  · intro h1 h2
    simp [resolvedInterpreter, h1, h2]
  · intro h1 h2
    simp [resolvedInterpreter, matchFunc, h1, h2]
  · intro h1 h2 h3
    have ht : strTruthy (some s) = true := by
      simp [strTruthy, h2]
    simp only [resolvedInterpreter, resolveErrMsg, h1, h3, ht, if_true,
      List.filter_nil, List.head?_nil, Option.getD_some]
    rw [← String.append_assoc]
    have hlit : ("Can't resolve python interpreter" ++ " " : String) =
        "Can't resolve python interpreter " := rfl
    rw [hlit]

/-- Witness for C4: the pinned interpreter of `projA` is returned with no
spec, and an unresolvable explicit spec yields the error message carrying
that spec. -/
theorem claim_C4_witness :
    resolvedInterpreter ⟨.venv, projA, none⟩ = .ok pyA ∧
    resolvedInterpreter ⟨.venv, projEmpty, some "3.12"⟩ =
      .error (.createError "Can't resolve python interpreter 3.12") := by
  refine ⟨(claim_C4_interpreter_resolution ⟨.venv, projA, none⟩ pyA [] "3.12").1 rfl rfl, ?_⟩
  exact (claim_C4_interpreter_resolution ⟨.venv, projEmpty, some "3.12"⟩ pyA []
    "3.12").2.2 rfl rfl rfl

/-- C7: the conda backend's identity is an explicitly supplied spec string
verbatim, for every project state (in particular one where resolution would
fail); every other backend's identity is the resolved interpreter's
identifier. -/
theorem claim_C7_conda_identity (p : Project) (s : String) (b : Backend)
    (py : PythonInfo) (hs : s.isEmpty = false) (hb : b.kind ≠ .conda)
    (hres : resolvedInterpreter b = .ok py) :
    Backend.identE ⟨.conda, p, some s⟩ = .ok s ∧
    b.identE = .ok py.identifier := by
  constructor
  · simp [Backend.identE, strTruthy, hs]
  · obtain ⟨k, bp, bpy⟩ := b
    cases k <;> simp_all [Backend.identE, Except.map]

/-- Witness for C7: conda with spec `"3.11"` on a project where resolution
fails still identifies as `"3.11"`; the venv backend identifies as the
resolved interpreter's identifier. -/
theorem claim_C7_witness :
    Backend.identE ⟨.conda, projEmpty, some "3.11"⟩ = .ok "3.11" ∧
    Backend.identE ⟨.venv, projA, none⟩ = .ok "3.11" := by
  exact claim_C7_conda_identity projEmpty "3.11" ⟨.venv, projA, none⟩ pyA rfl
    (by decide) (by decide)

/-- C8: the prompt template is interpolated with the lowercased project root
folder name (literal `"virtualenv"` when that name is empty) and the resolved
identity: `"{project_name}-{python_version}"` becomes `"myapp-3.11.2"` for
root folder `"MyApp"` and identity `"3.11.2"`, and `"virtualenv-3.11.2"` for
an empty root folder name. -/
theorem claim_C8_prompt_interpolation (b1 b2 : Backend)
    (h1 : b1.project.rootName = "MyApp") (hid1 : Backend.identE b1 = .ok "3.11.2")
    (h2 : b2.project.rootName = "") (hid2 : Backend.identE b2 = .ok "3.11.2") :
    formatCreatePrompt b1 "\x7bproject_name\x7d-\x7bpython_version\x7d" =
      .ok "myapp-3.11.2" ∧
    formatCreatePrompt b2 "\x7bproject_name\x7d-\x7bpython_version\x7d" =
      .ok "virtualenv-3.11.2" := by
  constructor
  · simp only [formatCreatePrompt, hid1, h1]
    decide
  · simp only [formatCreatePrompt, hid2, h2]
    decide

/-- Witness for C8 on concrete conda backends (whose identity is the spec
string). -/
theorem claim_C8_witness :
    formatCreatePrompt ⟨.conda, projA, some "3.11.2"⟩
        "\x7bproject_name\x7d-\x7bpython_version\x7d" = .ok "myapp-3.11.2" ∧
    formatCreatePrompt ⟨.conda, projNoName, some "3.11.2"⟩
        "\x7bproject_name\x7d-\x7bpython_version\x7d" = .ok "virtualenv-3.11.2" := by
  exact claim_C8_prompt_interpolation ⟨.conda, projA, some "3.11.2"⟩
    ⟨.conda, projNoName, some "3.11.2"⟩ (by decide) (by decide) (by decide) (by decide)

/-- C1 counterexample: with `in_project=true`, supplying both a name and an
explicit venv name does not fail at all — `get_location` and its
mutual-exclusion check are bypassed and creation succeeds at
`<root>/.venv`. -/
theorem claim_C1_counterexample :
    (create ⟨.venv, projA, none⟩ worldA (some "a") [] false true none false
        (some "b")).2 = .ok "home/MyApp/.venv" := by
  decide

/-- C1 amended: with `in_project=false`, for every backend and every
combination of the other arguments, supplying both a name and an explicit
venv name fails with the `UsageError` and an empty effect trace (so before
any directory is created or removed); with `in_project=true` the check is
bypassed. -/
theorem claim_C1_amended (b : Backend) (w : World) (name vname : Option String)
    (args : List String) (force : Bool) (prompt : Option String) (withPip : Bool)
    (h : (strTruthy name && strTruthy vname) = true) :
    create b w name args force false prompt withPip vname =
      ([], .error (.usageError "Cannot specify both name and venv_name")) := by
  simp [create, getLocation, h]

/-- Witness for C1 at a concrete call. -/
theorem claim_C1_witness :
    create ⟨.venv, projA, none⟩ worldA (some "a") [] false false none false (some "b") =
      ([], .error (.usageError "Cannot specify both name and venv_name")) :=
  claim_C1_amended _ _ _ _ _ _ _ _ (by decide)

lemma performCreate_conda_no_invoke (b : Backend) (w : World) (loc : String)
    (args : List String) (prompt : Option String) (hk : b.kind = .conda)
    (ha : args.any (fun a => strStartsWith a "python=") = true) :
    ∃ e, performCreate b w loc args prompt = ([], .error e) := by
  simp only [performCreate, hk]
  split
  · exact ⟨_, rfl⟩
  · simp only [ha, if_true]
    exact ⟨_, rfl⟩

/-- C2 counterexample: conda with `python=` in the extra args, `force=true`
and an occupied location deletes the location's contents before the
`UsageError` is raised — the error is not reported before cleanup. -/
theorem claim_C2_counterexample :
    (create ⟨.conda, projA, some "3.10"⟩ worldOccupied none ["python=3.9"] true false
        none false none).2 =
      .error (.usageError "Cannot use python= in conda creation arguments") ∧
    (create ⟨.conda, projA, some "3.10"⟩ worldOccupied none ["python=3.9"] true false
        none false none).1.any Effect.isDeletion = true := by
  constructor <;> decide

/-- C2 amended: for the conda backend, a `python=` specifier in the
caller-supplied extra args means create never invokes any process and never
succeeds; the `UsageError` is raised inside `perform_create`, which runs
after cleanup, so with `force` and an occupied location the cleanup deletions
have already happened by then. -/
theorem claim_C2_amended (b : Backend) (w : World) (name : Option String)
    (args : List String) (force inProject : Bool) (prompt : Option String)
    (withPip : Bool) (vname : Option String) (hk : b.kind = .conda)
    (ha : args.any (fun a => strStartsWith a "python=") = true) :
    (create b w name args force inProject prompt withPip vname).1.all
      (fun e => !e.isRunCommand) = true ∧
    (create b w name args force inProject prompt withPip vname).2.isOk = false := by
  have hfull : (pipArgs b.kind withPip ++ args).any
      (fun a => strStartsWith a "python=") = true := by
    simp [List.any_append, ha]
  unfold create
  rcases hLoc : (if inProject then (([], Except.ok b.project.inProjectLocation) :
      List Effect × Except PdmError String) else getLocation b w name vname) with
    ⟨locEffs, locE⟩
  have hlocAll : locEffs.all (fun e => !e.isRunCommand) = true := by
    by_cases hip : inProject
    · simp only [hip, if_true, Prod.mk.injEq] at hLoc
      rw [← hLoc.1]
      rfl
    · simp only [hip, if_false, Bool.false_eq_true, ite_false] at hLoc
      have h0 := getLocation_no_run b w name vname
      rw [hLoc] at h0
      exact h0
  simp only [hLoc]
  cases locE with
  | error e => exact ⟨hlocAll, rfl⟩
  | ok location =>
      have hclean : ∀ cleanEffs : List Effect,
          (ensureClean location (w.fsAt location) w.undeletable force).2.1 = cleanEffs →
          cleanEffs.all (fun e => !e.isRunCommand) = true := by
        intro cleanEffs hc
        rw [← hc]
        exact ensureClean_no_run location (w.fsAt location) w.undeletable force
      cases prompt with
      | none =>
          rcases hEC : ensureClean location (w.fsAt location) w.undeletable force with
            ⟨post, cleanEffs, cleanErr⟩
          simp only [hEC]
          cases cleanErr with
          | some e =>
              refine ⟨?_, rfl⟩
              simp [List.all_append, hlocAll, hclean cleanEffs (by rw [hEC])]
          | none =>
              obtain ⟨e0, hpc⟩ := performCreate_conda_no_invoke b w location
                (pipArgs b.kind withPip ++ args) none hk hfull
              simp only [hpc]
              refine ⟨?_, rfl⟩
              simp [List.all_append, hlocAll, hclean cleanEffs (by rw [hEC])]
      | some t =>
          cases hfp : formatCreatePrompt b t with
          | error e => simp only [hfp, Except.map]; exact ⟨hlocAll, rfl⟩
          | ok s =>
              simp only [hfp, Except.map]
              rcases hEC : ensureClean location (w.fsAt location) w.undeletable force with
                ⟨post, cleanEffs, cleanErr⟩
              simp only [hEC]
              cases cleanErr with
              | some e =>
                  refine ⟨?_, rfl⟩
                  simp [List.all_append, hlocAll, hclean cleanEffs (by rw [hEC])]
              | none =>
                  obtain ⟨e0, hpc⟩ := performCreate_conda_no_invoke b w location
                    (pipArgs b.kind withPip ++ args) (some s) hk hfull
                  simp only [hpc]
                  refine ⟨?_, rfl⟩
                  simp [List.all_append, hlocAll, hclean cleanEffs (by rw [hEC])]

/-- Witness for C2 at a concrete call (no force, empty location: the failure
is the `UsageError`, with no process invoked). -/
theorem claim_C2_witness :
    (create ⟨.conda, projA, some "3.10"⟩ worldA none ["python=3.9"] false false none
      false none).1.all (fun e => !e.isRunCommand) = true ∧
    (create ⟨.conda, projA, some "3.10"⟩ worldA none ["python=3.9"] false false none
      false none).2.isOk = false :=
  claim_C2_amended _ _ _ _ _ _ _ _ _ rfl (by decide)

/-- C9 counterexample: a permission failure while cleanup deletes an entry
surfaces to the caller as the raw OS error — it is not caught and reported as
a creation error. -/
theorem claim_C9_counterexample :
    (create ⟨.venv, projA, none⟩ worldUndeletable none [] true false none false
        none).2 = .error (.osError "cannot delete /venvs/MyApp-abc-3.11/x") := by
  decide

/-- C9 amended: a non-zero exit of the external tool is wrapped as a creation
error whose message carries the failing command; a launch failure of the tool
and a permission/IO failure while `ensureClean` deletes entries are not
caught — both propagate as the raw OS error, not as a creation error. -/
theorem claim_C9_amended (w : World) (cmd : List String) (code : Nat) (msg : String)
    (parent nm : String) (rest : List FSEntry) :
    (w.spawn cmd = .exit code → code ≠ 0 →
      subprocessCall w cmd =
        ([.runCommand cmd],
          .error (.createError ("Command " ++ String.intercalate " " cmd ++
            " returned non-zero exit status " ++ toString code)))) ∧
    (w.spawn cmd = .launchFailure msg →
      subprocessCall w cmd = ([.runCommand cmd], .error (.osError msg))) ∧
    (w.undeletable (pathJoin parent nm) = true →
      ensureClean parent (some (.dir (.file nm :: rest))) w.undeletable true =
        (some (.dir (.file nm :: rest)), [],
          some (.osError ("cannot delete " ++ pathJoin parent nm)))) := by
  refine ⟨?_, ?_, ?_⟩
  · intro h1 h2
    simp [subprocessCall, h1, h2]
  · intro h1
    simp [subprocessCall, h1]
  · intro h
    simp [ensureClean, cleanEntries, FSEntry.name, h]

/-- Witness for C9 at concrete worlds: an exit status 2, a failed launch, and
a directory whose single entry the OS refuses to delete. -/
theorem claim_C9_witness :
    subprocessCall worldExit2 ["conda", "create"] =
      ([.runCommand ["conda", "create"]],
        .error (.createError ("Command " ++ String.intercalate " " ["conda", "create"]
          ++ " returned non-zero exit status " ++ toString 2))) ∧
    subprocessCall worldLaunchFail ["conda", "create"] =
      ([.runCommand ["conda", "create"]], .error (.osError "spawn failed")) ∧
    ensureClean "L" (some (.dir [.file "x"])) worldUndeletable.undeletable true =
      (some (.dir [.file "x"]), [], some (.osError ("cannot delete " ++ pathJoin "L" "x"))) := by
  refine ⟨(claim_C9_amended worldExit2 ["conda", "create"] 2 "m" "L" "x" []).1 rfl
      (by decide), ?_, ?_⟩
  · exact (claim_C9_amended worldLaunchFail ["conda", "create"] 2 "spawn failed" "L"
      "x" []).2.1 rfl
  · exact (claim_C9_amended worldUndeletable ["conda", "create"] 2 "m" "L" "x" []).2.2
      rfl

/-- C10: for the virtualenv, venv and uv backends the prompt option passed to
the tool is `--prompt=<value>` exactly when the formatted prompt is
non-empty, and no prompt flag at all when it formats to the empty string; the
invoked command embeds exactly `promptOption` between its fixed part and the
trailing arguments. -/
theorem claim_C10_prompt_flag (b : Backend) (w : World) (loc : String)
    (args : List String) (p : String) (py : PythonInfo)
    (hres : resolvedInterpreter b = .ok py)
    (hk : b.kind = .virtualenv ∨ b.kind = .venv ∨ b.kind = .uv) :
    promptOption (some p) = (if p.isEmpty then [] else ["--prompt=" ++ p]) ∧
    promptOption (some "") = [] ∧
    ∃ pre post, (performCreate b w loc args (some p)).1 =
      [Effect.runCommand (pre ++ promptOption (some p) ++ post)] := by
  refine ⟨rfl, rfl, ?_⟩
  rcases hk with h | h | h
  · exact ⟨[w.sysExecutable, "-m", "virtualenv", loc, "-p", py.executable], args, by
      simp [performCreate, h, hres, subprocessCall_trace]⟩
  · exact ⟨[py.executable, "-m", "venv", loc], args, by
      simp [performCreate, h, hres, subprocessCall_trace]⟩
  · exact ⟨b.project.uvCmd ++ ["venv", "-p", py.executable], args ++ [loc], by
      simp [performCreate, h, hres, subprocessCall_trace]⟩

/-- Witness for C10 at a concrete virtualenv call with a non-empty prompt. -/
theorem claim_C10_witness :
    ∃ pre post, (performCreate ⟨.virtualenv, projA, none⟩ worldA "L" [] (some "hi")).1 =
      [Effect.runCommand (pre ++ promptOption (some "hi") ++ post)] :=
  (claim_C10_prompt_flag ⟨.virtualenv, projA, none⟩ worldA "L" [] "hi" pyA (by decide)
    (Or.inl rfl)).2.2

/-- C6: creating with the venv backend, no explicit name, `force=false` and
an empty or absent target directory returns
`<venv_root>/<prefix><identifier>`, and the one command invoked is the
resolved target interpreter's executable running its built-in `venv` module
(no separate launcher), with `--without-pip` present exactly when `with_pip`
is false. -/
theorem claim_C6_venv_end_to_end (p : Project) (w : World) (python : Option String)
    (py : PythonInfo) (withPip : Bool)
    (hres : resolvedInterpreter ⟨.venv, p, python⟩ = .ok py)
    (hfs : w.fsAt (pathJoin p.venvLocation (p.venvPrefix ++ py.identifier)) = none ∨
      w.fsAt (pathJoin p.venvLocation (p.venvPrefix ++ py.identifier)) = some (.dir []))
    (hspawn : ∀ c, w.spawn c = .exit 0) :
    create ⟨.venv, p, python⟩ w none [] false false none withPip none =
      ((if w.venvParentIsDir then [] else [Effect.mkdirVenvRoot p.venvLocation]) ++
        [Effect.runCommand ([py.executable, "-m", "venv",
            pathJoin p.venvLocation (p.venvPrefix ++ py.identifier)] ++
          (if withPip then ([] : List String) else ["--without-pip"]))],
        .ok (pathJoin p.venvLocation (p.venvPrefix ++ py.identifier))) ∧
    (("--without-pip" ∈ pipArgs .venv withPip) ↔ withPip = false) := by
  have hloc : getLocation ⟨.venv, p, python⟩ w none none =
      ((if w.venvParentIsDir then [] else [Effect.mkdirVenvRoot p.venvLocation]),
        .ok (pathJoin p.venvLocation (p.venvPrefix ++ py.identifier))) := by
    simp [getLocation, strTruthy, Backend.identE, hres, Except.map]
  constructor
  · rcases hfs with hfs | hfs <;>
      simp [create, hloc, ensureClean, performCreate, hres, promptOption, pipArgs,
        subprocessCall, hspawn, hfs]
  · cases withPip <;> simp [pipArgs]

/-- Witness for C6 at a concrete project and world. -/
theorem claim_C6_witness :
    create ⟨.venv, projA, none⟩ worldA none [] false false none false none =
      ([Effect.runCommand ["/usr/bin/python3.11", "-m", "venv", "/venvs/MyApp-abc-3.11",
          "--without-pip"]],
        .ok "/venvs/MyApp-abc-3.11") ∧
    (("--without-pip" ∈ pipArgs .venv false) ↔ false = false) := by
  have h := claim_C6_venv_end_to_end projA worldA none pyA false (by decide)
    (Or.inl rfl) (fun _ => rfl)
  simpa using h
